import Mathlib

/-!
Shallow embedding of `src/loader/index.py` from the llama-index-rag
repository: the `Index` class that resolves a model-type label to a
process-wide language-model and embedding-model configuration, builds and
persists a vector-store index over documents, and loads a persisted index
from a storage directory.

Pure data and control flow of the Python class are translated directly.
Calls into the external llama_index library (`VectorStoreIndex.from_documents`,
`storage_context.persist`, `load_index_from_storage`) are modelled as an
explicit storage map, as described by the spec (the repository treats the
persisted layout as opaque, keyed only by directory existence).
Python exceptions are modelled with `Except String`.
-/

namespace LlamaIndexRag

/-- `logging.DEBUG` from the Python standard library. -/
def DEBUG : Nat := 10

/-- Class constant `Index.__LLM_DEFAULT`. -/
def LLM_DEFAULT : String := "DEFAULT"

/-- Class constant `Index.__LLAMA2_7B_Q4`. -/
def LLAMA2_7B_Q4 : String := "LLAMA2-7B_Q4"

/-- Class constant `Index.__LLAMA2_7B_Q4_URL`. -/
def LLAMA2_7B_Q4_URL : String :=
  "https://huggingface.co/TheBloke/Llama-2-7B-Chat-GGUF/resolve/main/llama-2-7b-chat.Q4_K_M.gguf"

/-- Class constant `Index.__LLAMA2_7B_Q5`. -/
def LLAMA2_7B_Q5 : String := "LLAMA2-7B_Q5"

/-- Class constant `Index.__LLAMA2_7B_Q5_URL`. -/
def LLAMA2_7B_Q5_URL : String :=
  "https://huggingface.co/TheBloke/Llama-2-7B-Chat-GGUF/resolve/main/llama-2-7b-chat.Q5_K_M.gguf"

/-- Class constant `Index.__LLAMA2_13B_Q4`. -/
def LLAMA2_13B_Q4 : String := "LLAMA2-13B_Q4"

/-- Class constant `Index.__LLAMA2_13B_Q4_URL`. -/
def LLAMA2_13B_Q4_URL : String :=
  "https://huggingface.co/TheBloke/Llama-2-13B-chat-GGUF/resolve/main/llama-2-13b-chat.Q4_K_M.gguf"

/-- Class constant `Index.__LLAMA2_13B_Q5`. -/
def LLAMA2_13B_Q5 : String := "LLAMA2-13B_Q5"

/-- Class constant `Index.__LLAMA2_13B_Q5_URL`. -/
def LLAMA2_13B_Q5_URL : String :=
  "https://huggingface.co/TheBloke/Llama-2-13B-chat-GGUF/resolve/main/llama-2-13b-chat.Q5_K_M.gguf"

/-- Class constant `Index.__MIXTRAL_7B_Q4`. -/
def MIXTRAL_7B_Q4 : String := "MIXTRAL-7B_Q4"

/-- Class constant `Index.__MIXTRAL_7B_Q4_URL`. -/
def MIXTRAL_7B_Q4_URL : String :=
  "https://huggingface.co/TheBloke/Mixtral-8x7B-Instruct-v0.1-GGUF/resolve/main/mixtral-8x7b-instruct-v0.1.Q4_K_M.gguf"

/-- Class constant `Index.__MIXTRAL_7B_Q5`. -/
def MIXTRAL_7B_Q5 : String := "MIXTRAL-7B_Q5"

/-- Class constant `Index.__MIXTRAL_7B_Q5_URL`. -/
def MIXTRAL_7B_Q5_URL : String :=
  "https://huggingface.co/TheBloke/Mixtral-8x7B-Instruct-v0.1-GGUF/resolve/main/mixtral-8x7b-instruct-v0.1.Q5_K_M.gguf"

/-- The value stored in `Settings.llm`: either the string literal `"default"`
assigned in the `DEFAULT` branch, or the `LlamaCPP` object built by
`Index.__get_llm_model`. The `LlamaCPP` constructor arguments that the code
passes explicitly are `model_url`, `context_window` and `verbose`. -/
inductive LLMSetting where
  | defaultLLM : LLMSetting
  | llamaCPP (model_url : String) (context_window : Nat) (verbose : Bool) : LLMSetting
deriving DecidableEq, Repr

/-- The value stored in `Settings.embed_model`: the code only ever writes a
`HuggingFaceEmbedding` with a model name. The string literals `"default"` and
`"local"` assigned to the local variable `embed_model` inside the `match` are
a separate value, tracked by `match_model_type` below. -/
inductive EmbedSetting where
  | huggingFace (model_name : String) : EmbedSetting
deriving DecidableEq, Repr

/-- The process-wide `llama_index.core.Settings` fields the code writes. -/
structure Settings where
  llm : LLMSetting
  embed_model : EmbedSetting
  chunk_size : Nat
deriving DecidableEq, Repr

/-- `Index.__get_llm_model`: builds a `LlamaCPP` handle for a weights URL,
with `context_window=2048` and the given `verbose` flag. -/
def get_llm_model (model_url : String) (verbose : Bool) : LLMSetting :=
  LLMSetting.llamaCPP model_url 2048 verbose

/-- How Python renders the label inside the f-string
`f"LLM model type \x7bmodel_type\x7d not supported"`: `None` for the absent
label, the string itself otherwise. -/
def shownLabel : Option String → String
  | none => "None"
  | some s => s

/-- The `match model_type` statement of `Index.__set_service_context`,
lines 51-74: yields the pair of local variables `(llm, embed_model)` set by
the matching branch, or the `TypeError` raised by the fallthrough branch. -/
def match_model_type (model_type : Option String) (verbose : Bool) :
    Except String (LLMSetting × String) :=
  if model_type = some LLM_DEFAULT then
    Except.ok (LLMSetting.defaultLLM, "default")
  else if model_type = some LLAMA2_7B_Q4 then
    Except.ok (get_llm_model LLAMA2_7B_Q4_URL verbose, "local")
  else if model_type = some LLAMA2_7B_Q5 then
    Except.ok (get_llm_model LLAMA2_7B_Q5_URL verbose, "local")
  else if model_type = some LLAMA2_13B_Q4 then
    Except.ok (get_llm_model LLAMA2_13B_Q4_URL verbose, "local")
  else if model_type = some LLAMA2_13B_Q5 then
    Except.ok (get_llm_model LLAMA2_13B_Q5_URL verbose, "local")
  else if model_type = some MIXTRAL_7B_Q4 then
    Except.ok (get_llm_model MIXTRAL_7B_Q4_URL verbose, "local")
  else if model_type = some MIXTRAL_7B_Q5 then
    Except.ok (get_llm_model MIXTRAL_7B_Q5_URL verbose, "local")
  else
    Except.error ("LLM model type " ++ shownLabel model_type ++ " not supported")

/-- `Index.__set_service_context`, lines 43-78: run the `match`, then write
the three `Settings` fields. Note that the local variable `embed_model`
computed by the `match` is discarded: line 77 unconditionally writes
`Settings.embed_model = HuggingFaceEmbedding(model_name="BAAI/bge-small-en-v1.5")`. -/
def set_service_context (model_type : Option String) (verbose : Bool) :
    Except String Settings :=
  Except.map
    (fun llm_and_embed =>
      { llm := llm_and_embed.1,
        embed_model := EmbedSetting.huggingFace "BAAI/bge-small-en-v1.5",
        chunk_size := 512 })
    (match_model_type model_type verbose)

/-- The instance attributes set by `Index.__init__` together with the
process-wide `Settings` written during construction. -/
structure IndexState where
  verbose : Bool
  documents : Option (List String)
  storage_dir : Option String
  settings : Settings
deriving DecidableEq, Repr

/-- `Index.__init__(storage_dir, documents=None, model_type=None)`, lines
31-41: computes `verbose` from the logger level, stores `documents` and
`storage_dir`, then calls `__set_service_context(model_type)`, which raises
`TypeError` on an unrecognized label. `logger_level` stands for
`logging.getLogger("index").level`. -/
def Index.init (storage_dir : Option String) (documents : Option (List String))
    (model_type : Option String) (logger_level : Nat) : Except String IndexState :=
  let verbose : Bool := decide (logger_level = DEBUG)
  Except.map
    (fun s =>
      { verbose := verbose, documents := documents,
        storage_dir := storage_dir, settings := s })
    (set_service_context model_type verbose)

/-- Modelled from the spec: the opaque vector-store index produced by the
external `VectorStoreIndex.from_documents(documents, show_progress=...)`
call. The repository never inspects its structure; the model records the
documents it was built over and the progress flag it received. -/
structure BuiltIndex where
  docs : List String
  show_progress : Bool
deriving DecidableEq, Repr

/-- Modelled from the spec: `VectorStoreIndex.from_documents`. -/
def from_documents (documents : List String) (show_progress : Bool) : BuiltIndex :=
  { docs := documents, show_progress := show_progress }

/-- Modelled from the spec: the on-disk state. The persisted storage layout
is opaque to the repository, keyed only by directory path; the model is a
map from persisted directory paths to the serialized index. -/
abbrev Storage : Type := List (String × BuiltIndex)

/-- Modelled from the spec: `os.path.exists` restricted to what the code
observes — a persisted directory exists exactly when an index was persisted
to it. On a `None` path, `os.path.exists` raises `TypeError` (Python's
`os.stat` rejects `None` and `os.path.exists` only swallows `OSError` and
`ValueError`). -/
def path_exists (fs : Storage) : Option String → Except String Bool
  | none =>
      Except.error
        "TypeError: stat: path should be string, bytes, os.PathLike or integer, not NoneType"
  | some d => Except.ok (List.lookup d fs).isSome

/-- Modelled from the spec: `load_index_from_storage` on the storage context
of a persisted directory returns the index that was serialized there. -/
def load_index_from_storage (fs : Storage) (d : String) : Option BuiltIndex :=
  List.lookup d fs

/-- `Index.persist`, lines 80-97: if both `documents` and `storage_dir` are
present, build the index (passing `self.verbose` as `show_progress`), persist
it to `storage_dir`, and return it; otherwise skip and return `None`.
The result pairs the returned value with the updated on-disk state. -/
def Index.persist (st : IndexState) (fs : Storage) : Option BuiltIndex × Storage :=
  match st.documents, st.storage_dir with
  | some docs, some dir =>
      let index := from_documents docs st.verbose
      (some index, (dir, index) :: fs)
  | _, _ => (none, fs)

/-- `Index.load`, lines 99-117: check `os.path.exists(self.storage_dir)`
(raising `TypeError` when `storage_dir` is `None`); if the directory exists,
deserialize and return the index stored there, otherwise return `None`. -/
def Index.load (st : IndexState) (fs : Storage) : Except String (Option BuiltIndex) :=
  match path_exists fs st.storage_dir with
  | Except.error e => Except.error e
  | Except.ok true =>
      match st.storage_dir with
      | some d => Except.ok (load_index_from_storage fs d)
      | none => Except.ok none
  | Except.ok false => Except.ok none

/-- The recognized model-type labels: `DEFAULT` plus the six named
quantized variants. -/
def recognized : List String :=
  [LLM_DEFAULT, LLAMA2_7B_Q4, LLAMA2_7B_Q5, LLAMA2_13B_Q4, LLAMA2_13B_Q5,
   MIXTRAL_7B_Q4, MIXTRAL_7B_Q5]

/-- The `Settings` written by construction with the `DEFAULT` label. -/
def defaultSettings : Settings :=
  { llm := LLMSetting.defaultLLM,
    embed_model := EmbedSetting.huggingFace "BAAI/bge-small-en-v1.5",
    chunk_size := 512 }

/-- A sample instance state: constructed against storage directory
`"storage"` with no documents. -/
def sampleState : IndexState :=
  { verbose := false, documents := none, storage_dir := some "storage",
    settings := defaultSettings }

/-- A sample instance state holding one document. -/
def docState : IndexState :=
  { verbose := false, documents := some ["a test document"],
    storage_dir := some "storage", settings := defaultSettings }

/-! ## Claims -/

/-- C1 counterexample: constructing with `model_type=None` (the default) does
raise: `Index.__init__` reaches the fallthrough branch of the `match` and
raises `TypeError`, for example with storage path `"storage"` and logger
level `INFO` (20). -/
theorem c1_counterexample :
    Index.init (some "storage") none none 20 =
      Except.error ("LLM model type " ++ shownLabel none ++ " not supported") := by
  rfl

/-- C1 (amended): for every storage path, document collection and logger
level, construction with the model-type label omitted (`model_type=None`)
fails with a `TypeError` naming `None`; the library-default configuration is
only obtained by passing the explicit `"DEFAULT"` label, which succeeds. -/
theorem c1_amended (storage_dir : Option String) (documents : Option (List String))
    (logger_level : Nat) :
    Index.init storage_dir documents none logger_level =
      Except.error ("LLM model type " ++ shownLabel none ++ " not supported")
    ∧ ∃ st, Index.init storage_dir documents (some LLM_DEFAULT) logger_level =
        Except.ok st ∧ st.settings.llm = LLMSetting.defaultLLM := by
  refine ⟨rfl, ?_⟩
  exact ⟨_, rfl, rfl⟩

/-- C2, behavior of the code at the failing input: the embedding setting
written to `Settings.embed_model` is the same `HuggingFaceEmbedding` for the
`DEFAULT` label and for the quantized `LLAMA2-7B_Q4` label, even though the
`match` branches compute distinct local `embed_model` values (`"default"`
vs `"local"`) — the branch value is discarded by line 77. -/
theorem c2_code_eval :
    Except.map Settings.embed_model (set_service_context (some LLM_DEFAULT) false) =
      Except.ok (EmbedSetting.huggingFace "BAAI/bge-small-en-v1.5")
    ∧ Except.map Settings.embed_model (set_service_context (some LLAMA2_7B_Q4) false) =
      Except.ok (EmbedSetting.huggingFace "BAAI/bge-small-en-v1.5")
    ∧ Except.map Prod.snd (match_model_type (some LLM_DEFAULT) false) =
      Except.ok "default"
    ∧ Except.map Prod.snd (match_model_type (some LLAMA2_7B_Q4) false) =
      Except.ok "local" := by
  exact ⟨rfl, rfl, rfl, rfl⟩

/-- C6: whenever construction succeeds (for any model-type label and any
verbosity), the chunk-size setting written is exactly 512. -/
theorem c6_chunk_size (mt : Option String) (v : Bool) (s : Settings)
    (h : set_service_context mt v = Except.ok s) : s.chunk_size = 512 := by
  unfold set_service_context at h
  rcases hm : match_model_type mt v with e | p <;> rw [hm] at h <;>
    simp only [Except.map] at h
  · cases h
  · cases h
    rfl

/-- C6 witness: the `DEFAULT` label at verbosity `false`. -/
theorem c6_chunk_size_witness : defaultSettings.chunk_size = 512 :=
  c6_chunk_size (some LLM_DEFAULT) false defaultSettings rfl

/-- C4: `persist()` with `documents=None` or `storage_dir=None` skips: it
returns `None`, raises nothing, and leaves the on-disk storage unchanged. -/
theorem c4_persist_skip (st : IndexState) (fs : Storage)
    (h : st.documents = none ∨ st.storage_dir = none) :
    Index.persist st fs = (none, fs) := by
  cases hd : st.documents <;> cases hs : st.storage_dir <;>
    simp_all [Index.persist]

/-- C4 witness: an instance constructed with no documents. -/
theorem c4_persist_skip_witness : Index.persist sampleState [] = (none, []) :=
  c4_persist_skip sampleState [] (Or.inl rfl)

/-- C3: for every model-type label in the recognized set construction
succeeds with a resolved configuration, and for every label outside that set
(including the absent label) construction fails with a `TypeError` whose
message names the offending label. -/
theorem c3_label_recognition (mt : Option String) (v : Bool) :
    ((∃ l, mt = some l ∧ l ∈ recognized) → ∃ s, set_service_context mt v = Except.ok s)
    ∧ ((¬ ∃ l, mt = some l ∧ l ∈ recognized) →
        set_service_context mt v =
          Except.error ("LLM model type " ++ shownLabel mt ++ " not supported")) := by
  constructor
  · rintro ⟨l, rfl, hl⟩
    simp only [recognized, LLM_DEFAULT, LLAMA2_7B_Q4, LLAMA2_7B_Q5, LLAMA2_13B_Q4,
      LLAMA2_13B_Q5, MIXTRAL_7B_Q4, MIXTRAL_7B_Q5, List.mem_cons,
      List.not_mem_nil, or_false] at hl
    rcases hl with rfl | rfl | rfl | rfl | rfl | rfl | rfl
    · exact ⟨_, rfl⟩
    · exact ⟨_, rfl⟩
    · exact ⟨_, rfl⟩
    · exact ⟨_, rfl⟩
    · exact ⟨_, rfl⟩
    · exact ⟨_, rfl⟩
    · exact ⟨_, rfl⟩
  · intro h
    cases mt with
    | none => rfl
    | some l =>
      push_neg at h
      have hl := h l rfl
      simp only [recognized, LLM_DEFAULT, LLAMA2_7B_Q4, LLAMA2_7B_Q5, LLAMA2_13B_Q4,
        LLAMA2_13B_Q5, MIXTRAL_7B_Q4, MIXTRAL_7B_Q5, List.mem_cons,
        List.not_mem_nil, or_false, not_or] at hl
      obtain ⟨h1, h2, h3, h4, h5, h6, h7⟩ := hl
      simp [set_service_context, match_model_type, Except.map, LLM_DEFAULT, LLAMA2_7B_Q4,
        LLAMA2_7B_Q5, LLAMA2_13B_Q4, LLAMA2_13B_Q5, MIXTRAL_7B_Q4, MIXTRAL_7B_Q5,
        h1, h2, h3, h4, h5, h6, h7, shownLabel]

/-- C3 witness: the recognized label `"DEFAULT"` succeeds; the unrecognized
label `"GPT4"` fails with the error naming it. -/
theorem c3_label_recognition_witness :
    (∃ s, set_service_context (some "DEFAULT") true = Except.ok s)
    ∧ set_service_context (some "GPT4") true =
        Except.error ("LLM model type " ++ shownLabel (some "GPT4") ++ " not supported") := by
  constructor
  · exact (c3_label_recognition (some "DEFAULT") true).1 ⟨"DEFAULT", rfl, by decide⟩
  · exact (c3_label_recognition (some "GPT4") true).2
      (by rintro ⟨l, hl, hmem⟩; cases hl; revert hmem; decide)

/-- C5: on an instance whose storage path is an actual path, `load()` raises
nothing and returns the deserialized index from that path; the index is
present exactly when the storage directory exists. -/
theorem c5_load_existence (st : IndexState) (fs : Storage) (d : String)
    (hd : st.storage_dir = some d) :
    Index.load st fs = Except.ok (load_index_from_storage fs d)
    ∧ ((load_index_from_storage fs d).isSome ↔
        path_exists fs st.storage_dir = Except.ok true) := by
  rcases hlk : List.lookup d fs with _ | idx <;>
    simp [Index.load, path_exists, load_index_from_storage, hd, hlk]

/-- C5 witness: loading against empty on-disk storage returns `Except.ok none`
with no exception. -/
theorem c5_load_existence_witness :
    Index.load sampleState [] = Except.ok (load_index_from_storage [] "storage")
    ∧ ((load_index_from_storage ([] : Storage) "storage").isSome ↔
        path_exists [] sampleState.storage_dir = Except.ok true) :=
  c5_load_existence sampleState [] "storage" rfl

/-- C7: round-trip. With a non-empty document collection and a fresh (not yet
persisted) storage directory, `persist()` returns a non-null index and writes
it to the directory, and a subsequent `load()` on the resulting storage
returns that very index (hence it answers every query exactly as the index
`persist()` returned). -/
theorem c7_round_trip (st : IndexState) (fs : Storage) (docs : List String) (d : String)
    (hdocs : st.documents = some docs) (_hne : docs ≠ [])
    (hdir : st.storage_dir = some d) (_hfresh : List.lookup d fs = none) :
    ∃ idx, Index.persist st fs = (some idx, (d, idx) :: fs)
      ∧ Index.load st ((Index.persist st fs).2) = Except.ok (some idx) := by
  refine ⟨from_documents docs st.verbose, ?_, ?_⟩
  · simp [Index.persist, hdocs, hdir]
  · simp [Index.persist, Index.load, path_exists, load_index_from_storage,
      hdocs, hdir, List.lookup]

/-- C7 witness: one document, empty storage. -/
theorem c7_round_trip_witness :
    ∃ idx, Index.persist docState [] = (some idx, ("storage", idx) :: [])
      ∧ Index.load docState ((Index.persist docState []).2) = Except.ok (some idx) :=
  c7_round_trip docState [] ["a test document"] "storage" rfl (by decide) rfl rfl

/-- C9: the `persist()` skip is triggered only by `None`, not by emptiness:
with `documents=[]` and a storage path present, `persist()` takes the build
branch — it builds an index over the empty collection and persists it, rather
than returning `None` via the skip branch. -/
theorem c9_empty_documents (st : IndexState) (fs : Storage) (d : String)
    (hdocs : st.documents = some []) (hdir : st.storage_dir = some d) :
    Index.persist st fs =
      (some (from_documents [] st.verbose),
       (d, from_documents [] st.verbose) :: fs) := by
  simp [Index.persist, hdocs, hdir]

/-- C9 witness: an instance whose document collection is the empty list. -/
theorem c9_empty_documents_witness :
    Index.persist { sampleState with documents := some [] } [] =
      (some (from_documents [] ({ sampleState with documents := some [] } : IndexState).verbose),
       ("storage", from_documents [] ({ sampleState with documents := some [] } : IndexState).verbose) :: []) :=
  c9_empty_documents { sampleState with documents := some [] } [] "storage" rfl rfl

/-- C10: on an instance with `storage_dir=None`, `persist()` and `load()` are
asymmetric: `persist()` takes the non-fatal skip branch and returns `None`,
while `load()` evaluates `os.path.exists(None)`, which raises `TypeError`. -/
theorem c10_none_storage_dir (st : IndexState) (fs : Storage)
    (h : st.storage_dir = none) :
    Index.persist st fs = (none, fs)
    ∧ Index.load st fs =
        Except.error
          "TypeError: stat: path should be string, bytes, os.PathLike or integer, not NoneType" := by
  constructor
  · cases hd : st.documents <;> simp_all [Index.persist]
  · simp [Index.load, path_exists, h]

/-- Any successful branch of the `match` in `__set_service_context` yields
either the default language model or a `LlamaCPP` model built with context
window 2048 and the verbosity flag the caller passed. -/
lemma match_model_type_ok_llm (mt : Option String) (v : Bool) (p : LLMSetting × String)
    (h : match_model_type mt v = Except.ok p) :
    p.1 = LLMSetting.defaultLLM ∨ ∃ url, p.1 = LLMSetting.llamaCPP url 2048 v := by
  unfold match_model_type at h
  repeat' split at h
  all_goals cases h
  · exact Or.inl rfl
  all_goals exact Or.inr ⟨_, rfl⟩

/-- The language model written by a successful `__set_service_context` is the
default one or a `LlamaCPP` model carrying the caller's verbosity flag. -/
lemma set_service_context_ok_llm (mt : Option String) (v : Bool) (s : Settings)
    (h : set_service_context mt v = Except.ok s) :
    s.llm = LLMSetting.defaultLLM ∨ ∃ url, s.llm = LLMSetting.llamaCPP url 2048 v := by
  unfold set_service_context at h
  rcases hm : match_model_type mt v with e | p <;> rw [hm] at h <;>
    simp only [Except.map] at h
  · cases h
  · cases h
    exact match_model_type_ok_llm mt v p hm

/-- C8: the verbosity flag is computed once at construction as
`logger level == DEBUG`; `persist()` passes it to the index-build call as the
`show_progress` flag, and when the active language model is a quantized
`LlamaCPP` model its constructor received it as its `verbose` flag. -/
theorem c8_verbose_flag (storage_dir : Option String) (documents : Option (List String))
    (mt : Option String) (logger_level : Nat) (st : IndexState) (fs : Storage)
    (h : Index.init storage_dir documents mt logger_level = Except.ok st)
    (idx : BuiltIndex) (fs2 : Storage)
    (hp : Index.persist st fs = (some idx, fs2))
    (url : String) (cw : Nat) (vb : Bool)
    (hllm : st.settings.llm = LLMSetting.llamaCPP url cw vb) :
    st.verbose = decide (logger_level = DEBUG)
    ∧ idx.show_progress = st.verbose
    ∧ vb = st.verbose := by
  have h0 : Except.map
      (fun s =>
        ({ verbose := decide (logger_level = DEBUG), documents := documents,
           storage_dir := storage_dir, settings := s } : IndexState))
      (set_service_context mt (decide (logger_level = DEBUG))) = Except.ok st := h
  have hv : st.verbose = decide (logger_level = DEBUG) ∧
      set_service_context mt (decide (logger_level = DEBUG)) = Except.ok st.settings := by
    rcases hs : set_service_context mt (decide (logger_level = DEBUG)) with e | s <;>
      rw [hs] at h0 <;> simp only [Except.map] at h0
    · cases h0
    · cases h0
      exact ⟨rfl, rfl⟩
  refine ⟨hv.1, ?_, ?_⟩
  · rcases hd : st.documents with _ | docs <;> rcases hsd : st.storage_dir with _ | dir <;>
      simp [Index.persist, hd, hsd] at hp
    rw [← hp.1]
    rfl
  · rcases set_service_context_ok_llm mt (decide (logger_level = DEBUG)) st.settings hv.2
      with hdef | ⟨u, hq⟩
    · rw [hllm] at hdef
      cases hdef
    · rw [hllm] at hq
      injection hq with e1 e2 e3
      rw [e3, hv.1]

/-- C8 witness: a debug-level logger (level 10), the quantized
`LLAMA2-7B_Q4` label, one document. -/
theorem c8_verbose_flag_witness :
    ({ verbose := true, documents := some ["a test document"],
       storage_dir := some "storage",
       settings := { llm := LLMSetting.llamaCPP LLAMA2_7B_Q4_URL 2048 true,
                     embed_model := EmbedSetting.huggingFace "BAAI/bge-small-en-v1.5",
                     chunk_size := 512 } } : IndexState).verbose = decide (10 = DEBUG)
    ∧ ({ docs := ["a test document"], show_progress := true } : BuiltIndex).show_progress =
      ({ verbose := true, documents := some ["a test document"],
         storage_dir := some "storage",
         settings := { llm := LLMSetting.llamaCPP LLAMA2_7B_Q4_URL 2048 true,
                       embed_model := EmbedSetting.huggingFace "BAAI/bge-small-en-v1.5",
                       chunk_size := 512 } } : IndexState).verbose
    ∧ true = ({ verbose := true, documents := some ["a test document"],
                storage_dir := some "storage",
                settings := { llm := LLMSetting.llamaCPP LLAMA2_7B_Q4_URL 2048 true,
                              embed_model := EmbedSetting.huggingFace "BAAI/bge-small-en-v1.5",
                              chunk_size := 512 } } : IndexState).verbose :=
  c8_verbose_flag (some "storage") (some ["a test document"]) (some LLAMA2_7B_Q4) 10
    { verbose := true, documents := some ["a test document"],
      storage_dir := some "storage",
      settings := { llm := LLMSetting.llamaCPP LLAMA2_7B_Q4_URL 2048 true,
                    embed_model := EmbedSetting.huggingFace "BAAI/bge-small-en-v1.5",
                    chunk_size := 512 } } []
    rfl { docs := ["a test document"], show_progress := true } [("storage", { docs := ["a test document"], show_progress := true })]
    rfl LLAMA2_7B_Q4_URL 2048 true rfl

/-- C10 witness: an instance with documents but no storage path. -/
theorem c10_none_storage_dir_witness :
    Index.persist { docState with storage_dir := none } [] = (none, [])
    ∧ Index.load { docState with storage_dir := none } [] =
        Except.error
          "TypeError: stat: path should be string, bytes, os.PathLike or integer, not NoneType" :=
  c10_none_storage_dir { docState with storage_dir := none } [] rfl

end LlamaIndexRag
